import Mathlib

/-!
Shallow embedding of the domo-rpi bridge (Rust) in Lean 4.

The embedding covers:
* the SPI transport layer of src/peripheral.rs (read_number, write_number,
  resync) over an explicit list of response bytes,
* the packed 32-bit actuator colour codec of src/messages.in.rs
  (Color.update / Color.from_raw / Color.raw), with f32 channel values
  modelled as exact rationals,
* the relay layer of src/socket.rs (reconnect backoff, the per-process
  time-trust flag, the outbound send task) as an explicit step relation.

Machine integers are modelled as Nat with explicit wrap (% 2^32) where the
source can overflow.
-/

namespace Domo

/-- Modelled from the spec: the external crc8 crate (a dependency, not part of
src/) implements the MSB-first CRC-8 with polynomial 0x07 used by the frame
format. This is one MSB-first shift step on an 8-bit register: shift left,
xor-ing in the polynomial when the top bit falls out. -/
def crc8_step (c : Nat) : Nat :=
  if 128 ≤ c % 256 then ((c % 256) * 2) % 256 ^^^ 0x07 else ((c % 256) * 2) % 256

/-- Modelled from the spec: absorbing one byte into the CRC-8 register (xor the
byte in, then run 8 MSB-first shift steps). -/
def crc8_byte (crc b : Nat) : Nat :=
  crc8_step^[8] ((crc ^^^ b) % 256)

/-- Modelled from the spec: Crc8.calc of the crc8 crate, computing the CRC over
the first len bytes of buf starting from the initial register value init. -/
def crc8_calc (buf : List Nat) (len : Nat) (init : Nat) : Nat :=
  (buf.take len).foldl crc8_byte init

/-- src/peripheral.rs: operation-type tag for a 2-byte getter (bits 7-6 = 00). -/
def TYPE_GETTER2 : Nat := 0b00000000

/-- src/peripheral.rs: operation-type tag for a 4-byte getter (bits 7-6 = 01). -/
def TYPE_GETTER4 : Nat := 0b01000000

/-- src/peripheral.rs: operation-type tag for a 2-byte setter (bits 7-6 = 10). -/
def TYPE_SETTER2 : Nat := 0b10000000

/-- src/peripheral.rs: operation-type tag for a 4-byte setter (bits 7-6 = 11). -/
def TYPE_SETTER4 : Nat := 0b11000000

/-- Errors of the transport layer (src/peripheral.rs renders them as io::Error
values; the panic on a length outside {2,4} is modelled as badLength). -/
inductive BusError where
  | badLength : BusError
  | noStart (got : Nat) : BusError
  | checksum (received computed : Nat) (data : List Nat) : BusError

/-- src/peripheral.rs, Peripheral::read_number, decode loop: starting from 0,
for each data byte the running result is shifted right by 8 and the byte,
shifted left by (length - 1) * 8, is added. -/
def read_decode (length : Nat) (data : List Nat) : Nat :=
  (List.range length).foldl
    (fun result i => result / 256 + data.getD i 0 * 2 ^ ((length - 1) * 8)) 0

/-- src/peripheral.rs, Peripheral::read_number after the command byte has been
written, over the stream resp of response bytes. Returns the result together
with the number of response bytes consumed: the first byte is read and must be
the 0xff start sentinel (otherwise an error is returned after reading just that
one byte); then length data bytes and one checksum byte are read, the CRC-8 is
computed over the raw command byte followed by the data bytes, and a mismatch
with the received checksum byte is an error carrying both checksums and the
data bytes. -/
def read_number_go (rawcmd length : Nat) (resp : List Nat) :
    Except BusError Nat × Nat :=
  if resp.getD 0 0 = 0xff then
    let data := (List.range length).map (fun i => resp.getD (i + 1) 0)
    let received := resp.getD (length + 1) 0
    let computed := crc8_calc (rawcmd :: data) (length + 1) 0
    if received ≠ computed then
      (Except.error (BusError.checksum received computed data), length + 2)
    else
      (Except.ok (read_decode length data), length + 2)
  else
    (Except.error (BusError.noStart (resp.getD 0 0)), 1)

/-- src/peripheral.rs, Peripheral::read_number: the command byte is the opcode
or-ed with the getter tag matching the length; a length outside {2,4} panics
(modelled as the badLength error, consuming nothing). -/
def read_number (cmd length : Nat) (resp : List Nat) : Except BusError Nat × Nat :=
  match length with
  | 2 => read_number_go (cmd ||| TYPE_GETTER2) 2 resp
  | 4 => read_number_go (cmd ||| TYPE_GETTER4) 4 resp
  | _ => (Except.error BusError.badLength, 0)

/-- src/peripheral.rs, Peripheral::write_number, serialization loop: length
little-endian bytes of value (byte i is value / 256^i % 256). -/
def le_bytes : Nat → Nat → List Nat
  | 0, _ => []
  | n + 1, v => v % 256 :: le_bytes n (v / 256)

/-- src/peripheral.rs, Peripheral::write_number, frame construction: the raw
command byte, the little-endian data bytes, then the CRC-8 over command byte
and data bytes. -/
def write_frame (rawcmd length value : Nat) : List Nat :=
  let data := le_bytes length value
  rawcmd :: data ++ [crc8_calc (rawcmd :: data) (length + 1) 0]

/-- src/peripheral.rs, Peripheral::write_number: the command byte is the opcode
or-ed with the setter tag matching the length (a length outside {2,4} panics,
modelled as badLength); the value of the computation is the list of bytes
transmitted on the bus, in order. -/
def write_number (cmd length value : Nat) : Except BusError (List Nat) :=
  match length with
  | 2 => Except.ok (write_frame (cmd ||| TYPE_SETTER2) 2 value)
  | 4 => Except.ok (write_frame (cmd ||| TYPE_SETTER4) 4 value)
  | _ => Except.error BusError.badLength

/-- Error of src/peripheral.rs, Peripheral::resync, carrying the three bytes
that were read in place of the expected signature. -/
inductive ResyncError where
  | badSignature (b0 b1 b2 : Nat) : ResyncError

/-- src/peripheral.rs, Peripheral::resync, over the stream of bytes polled from
the bus: single bytes are read until the 0xff start-of-command sentinel is
seen, then exactly three further bytes are read and compared against the fixed
signature cd ab 1f. The result is none when the source loop would block
forever (the sentinel never appears, or the stream ends before three more
bytes arrive). -/
def resync : List Nat → Option (Except ResyncError Unit)
  | [] => none
  | b :: rest =>
    if b = 0xff then
      match rest with
      | b0 :: b1 :: b2 :: _ =>
        some (if [b0, b1, b2] = [0xcd, 0xab, 0x1f] then Except.ok ()
              else Except.error (ResyncError.badSignature b0 b1 b2))
      | _ => none
    else resync rest

/-- src/messages.in.rs: COLOR_FLAG_WHITE, bit 7 of packed byte 0. -/
def COLOR_FLAG_WHITE : Nat := 0b10000000

/-- src/messages.in.rs: COLOR_FLAG_LOOPING, bit 6 of packed byte 0. -/
def COLOR_FLAG_LOOPING : Nat := 0b01000000

/-- src/messages.in.rs: COLOR_MODE_MASK, the low two mode bits of byte 0. -/
def COLOR_MODE_MASK : Nat := 0b00000011

/-- src/messages.in.rs: COLOR_MODE_RGB. -/
def COLOR_MODE_RGB : Nat := 0b00000000

/-- src/messages.in.rs: COLOR_MODE_HSV. -/
def COLOR_MODE_HSV : Nat := 0b00000001

/-- src/messages.in.rs: COLOR_MODE_HSV_MAX. -/
def COLOR_MODE_HSV_MAX : Nat := 0b00000010

/-- src/messages.in.rs: COLOR_MODE_UNDEF1. -/
def COLOR_MODE_UNDEF1 : Nat := 0b00000011

/-- src/messages.in.rs: the Color structure. The f32 channel fields are
modelled as exact rationals; mode is the mode string exactly as in the
source. -/
structure Color where
  mode : String
  is_white : Bool
  is_looping : Bool
  hue : ℚ
  time : ℚ
  saturation : ℚ
  value : ℚ
  red : ℚ
  green : ℚ
  blue : ℚ
deriving DecidableEq

/-- src/messages.in.rs: Color::new, all fields at their Rust Default (empty
mode string, false flags, zero channels). -/
def Color.new : Color :=
  { mode := "", is_white := false, is_looping := false, hue := 0, time := 0,
    saturation := 0, value := 0, red := 0, green := 0, blue := 0 }

/-- Modelled from the spec: the external ufloat8 crate (declared in
src/messages.rs as an extern crate; its code is not in src/) is an opaque
micro-float codec whose decode is a monotonic lossy expansion of a byte to a
u32 and whose encode is its approximate inverse; the spec's round-trip
property in section 8 requires encode to be a left inverse of decode on bytes,
and explicitly leaves the internal bit layout unspecified. It is modelled here
as the simplest codec with these properties: decode is the identity embedding
of a byte. -/
def ufloat8_decode (b : Nat) : Nat := b

/-- Modelled from the spec: the ufloat8 encode direction, the approximate
(lossy, byte-saturating) inverse of ufloat8_decode; a left inverse on bytes. -/
def ufloat8_encode (v : Nat) : Nat := min v 255

/-- src/messages.in.rs, Color::update, byte extraction loop: byte i is the top
byte of the running u32 register, which is shifted left by 8 (wrapping mod
2^32) after each extraction. -/
def update_bytes (value : Nat) : List Nat :=
  (List.range 4).map (fun i => value * 2 ^ (8 * i) % 2 ^ 32 / 2 ^ 24)

/-- Rust f32::round on the exact rational value: round half away from zero. -/
def f32_round (q : ℚ) : Int :=
  if 0 ≤ q then ⌊q + 1 / 2⌋ else -⌊-q + 1 / 2⌋

/-- Rust numeric cast from a float (here its rounded integer value) to u8:
saturating at the bounds of the target type. -/
def cast_u8 (x : Int) : Nat := min x.toNat 255

/-- Rust numeric cast from a float (here its rounded integer value) to u32:
saturating at the bounds of the target type. -/
def cast_u32 (x : Int) : Nat := min x.toNat (2 ^ 32 - 1)

/-- src/messages.in.rs, Color::update: split the raw word into 4 bytes (most
significant first), select the mode string from the low two bits of byte 0,
read the white and looping flags from the unmasked byte 0, then fill the
channel fields according to the mode (rgb channels, or hue-or-time plus
saturation and value for the hsv modes, byte 1 going through the ufloat8
decoder divided by 4 when looping); an unknown mode leaves the channel fields
untouched. -/
def Color.update (c : Color) (value : Nat) : Color :=
  let bytes := update_bytes value
  let b0 := bytes.getD 0 0
  let mode := b0 &&& COLOR_MODE_MASK
  let c :=
    { c with
      mode :=
        if mode = COLOR_MODE_RGB then "rgb"
        else if mode = COLOR_MODE_HSV then "hsv"
        else if mode = COLOR_MODE_HSV_MAX then "hsv-max"
        else "undefined-1",
      is_white := b0 &&& COLOR_FLAG_WHITE != 0,
      is_looping := b0 &&& COLOR_FLAG_LOOPING != 0 }
  if mode = COLOR_MODE_RGB then
    { c with
      red := (bytes.getD 1 0 : ℚ) / 255,
      green := (bytes.getD 2 0 : ℚ) / 255,
      blue := (bytes.getD 3 0 : ℚ) / 255 }
  else if mode = COLOR_MODE_HSV ∨ mode = COLOR_MODE_HSV_MAX then
    let c :=
      if c.is_looping then
        { c with time := (ufloat8_decode (bytes.getD 1 0) : ℚ) / 4 }
      else
        { c with hue := (bytes.getD 1 0 : ℚ) / 255 }
    { c with
      saturation := (bytes.getD 2 0 : ℚ) / 255,
      value := (bytes.getD 3 0 : ℚ) / 255 }
  else c

/-- src/messages.in.rs, Color::from_raw: a fresh Color updated from the raw
word. -/
def Color.from_raw (value : Nat) : Color :=
  Color.new.update value

/-- src/messages.in.rs, Color::raw: byte 0 is the mode constant matching the
mode string (anything unknown maps to COLOR_MODE_UNDEF1) or-ed with the white
and looping flag bits; the three channel bytes denormalize the active channels
by rounding value * 255 (with byte 1 going through the ufloat8 encoder on
round(time * 4) when looping), or stay zero for an unknown mode; the four
bytes are assembled most significant first. -/
def Color.raw (c : Color) : Nat :=
  let b0 :=
    if c.mode = "rgb" then COLOR_MODE_RGB
    else if c.mode = "hsv" then COLOR_MODE_HSV
    else if c.mode = "hsv-max" then COLOR_MODE_HSV_MAX
    else COLOR_MODE_UNDEF1
  let b0 := if c.is_white then b0 ||| COLOR_FLAG_WHITE else b0
  let b0 := if c.is_looping then b0 ||| COLOR_FLAG_LOOPING else b0
  let rest :=
    if c.mode = "rgb" then
      [cast_u8 (f32_round (c.red * 255)),
       cast_u8 (f32_round (c.green * 255)),
       cast_u8 (f32_round (c.blue * 255))]
    else if c.mode = "hsv" ∨ c.mode = "hsv-max" then
      [(if c.is_looping then ufloat8_encode (cast_u32 (f32_round (c.time * 4)))
        else cast_u8 (f32_round (c.hue * 255))),
       cast_u8 (f32_round (c.saturation * 255)),
       cast_u8 (f32_round (c.value * 255))]
    else [0, 0, 0]
  (b0 :: rest).foldl (fun raw b => raw * 256 + b) 0

/-- src/messages.in.rs: the MsgServer structure describing a message received
from the server (timestamp as a mathematical integer in place of i64). -/
structure MsgServer where
  message : String
  name : Option String
  timestamp : Option Int
  value : Option Color

/-- src/socket.rs, Socket::on_message, effect on the verified_time flag: a
message whose discriminator is the string time and whose timestamp differs
from the local clock by strictly less than 60 seconds sets the flag to true;
any other message (wrong discriminator, missing timestamp, or a timestamp 60
or more seconds away, which only logs a warning) leaves the flag unchanged. -/
def on_message_verified (now : Int) (verified : Bool) (msg : MsgServer) : Bool :=
  if msg.message = "time" then
    match msg.timestamp with
    | some value => if (value - now).natAbs < 60 then true else verified
    | none => verified
  else verified

/-- src/socket.rs, Socket::run, send-task loop body applied to the whole
sequence of dequeued outbound messages, each paired with the value the
verified_time flag has when it is dequeued: a message dequeued while the flag
is false is discarded (logged and skipped with continue, never re-queued); a
message dequeued while the flag is true is transmitted. The result is the list
of transmitted messages, in order. -/
def send_task : List (Bool × String) → List String
  | [] => []
  | (verified, msg) :: rest =>
    if verified then msg :: send_task rest else send_task rest

/-- src/socket.rs: the mutable state of Socket::run: the reconnect delay
delay_seconds, and the verified_time flag shared with on_message. -/
structure RelayState where
  delay_seconds : Nat
  verified_time : Bool
deriving DecidableEq

/-- src/socket.rs, Socket::connect and the start of Socket::run: verified_time
starts false and delay_seconds starts at 1; both are created once, before the
reconnect loop. -/
def relay_init : RelayState := { delay_seconds := 1, verified_time := false }

/-- One observable event of the src/socket.rs reconnect loop: a failed
ws::connect attempt, a connection opening (the connect closure runs), a server
message arriving on an open connection (with the local clock value), or an
open connection ending (ws::connect returns and the loop iterates). -/
inductive RelayEvent where
  | connectFail : RelayEvent
  | connectOpen : RelayEvent
  | serverMsg (now : Int) (msg : MsgServer) : RelayEvent
  | disconnect : RelayEvent

/-- src/socket.rs, Socket::run, one event step, returning the new state and
the seconds slept during the step. On a failed connect the delay is doubled
with cap 60 (cmp::min) and then slept; when a connection opens the closure
resets the delay to 1 (nothing is slept at that point); a server message
updates verified_time through on_message; when the connection ends the loop
sleeps the current delay before retrying. No event resets verified_time: the
flag is created once in Socket::connect and the reconnect loop never writes
false to it. -/
def relay_step : RelayState → RelayEvent → RelayState × Nat
  | st, RelayEvent.connectFail =>
    ({ delay_seconds := min 60 (st.delay_seconds * 2),
       verified_time := st.verified_time }, min 60 (st.delay_seconds * 2))
  | st, RelayEvent.connectOpen =>
    ({ delay_seconds := 1, verified_time := st.verified_time }, 0)
  | st, RelayEvent.serverMsg now msg =>
    ({ delay_seconds := st.delay_seconds,
       verified_time := on_message_verified now st.verified_time msg }, 0)
  | st, RelayEvent.disconnect => (st, st.delay_seconds)

/-- src/socket.rs, Socket::run over a sequence of events: the final state and
the list of sleep durations performed, in order. -/
def relay_run : RelayState → List RelayEvent → RelayState × List Nat
  | st, [] => (st, [])
  | st, e :: es =>
    let p := relay_step st e
    let q := relay_run p.1 es
    (q.1, p.2 :: q.2)

/-- The little-endian unsigned value of a list of bytes, byte 0 least
significant: the decoded-value notion the spec states for read_number. -/
def le_value : List Nat → Nat
  | [] => 0
  | b :: rest => b + 256 * le_value rest

/-- C4: every message dequeued by the send task while the time-trust flag is
false is discarded without being transmitted or re-queued; no message is
transmitted while the flag is false, and each message dequeued with the flag
true is transmitted: the transmitted list is exactly the flagged-true
messages, in order. -/
theorem send_task_gate (q : List (Bool × String)) :
    send_task q = (q.filter (fun p => p.1)).map (fun p => p.2) ∧
    ((∀ p ∈ q, p.1 = false) → send_task q = []) ∧
    ((∀ p ∈ q, p.1 = true) → send_task q = q.map (fun p => p.2)) := by
  induction q with
  | nil => exact ⟨rfl, fun _ => rfl, fun _ => rfl⟩
  | cons p rest ih =>
    obtain ⟨hfm, hff, hft⟩ := ih
    obtain ⟨v, m⟩ := p
    cases v
    · refine ⟨by simpa [send_task] using hfm, ?_, ?_⟩
      · intro hall
        simpa [send_task] using hff fun p hp => hall p (List.mem_cons_of_mem _ hp)
      · intro hall
        have := hall (false, m) (List.mem_cons_self _ _)
        simp at this
    · refine ⟨by simpa [send_task] using hfm, ?_, ?_⟩
      · intro hall
        have := hall (true, m) (List.mem_cons_self _ _)
        simp at this
      · intro hall
        simpa [send_task] using hft fun p hp => hall p (List.mem_cons_of_mem _ hp)

/-- C4 witness: a message dequeued while the flag is false is dropped, so an
all-unverified queue transmits nothing. -/
theorem send_task_gate_witness : send_task [(false, "telemetry")] = [] :=
  (send_task_gate [(false, "telemetry")]).2.1 (by simp)

/-- C5: a time message sets the verified_time flag to true when its timestamp
differs from the local clock by strictly less than 60 seconds; a timestamp 60
or more seconds away, or a missing timestamp, leaves the flag unchanged. -/
theorem time_message_trust (now : Int) (verified : Bool) (msg : MsgServer)
    (htime : msg.message = "time") :
    ((∃ ts, msg.timestamp = some ts ∧ (ts - now).natAbs < 60) →
       on_message_verified now verified msg = true) ∧
    ((∀ ts, msg.timestamp = some ts → 60 ≤ (ts - now).natAbs) →
       on_message_verified now verified msg = verified) := by
  constructor
  · rintro ⟨ts, hts, hlt⟩
    simp [on_message_verified, htime, hts, hlt]
  · intro hall
    cases hts : msg.timestamp with
    | none => simp [on_message_verified, htime, hts]
    | some ts =>
      have h60 := hall ts hts
      simp [on_message_verified, htime, hts, Nat.not_lt.mpr h60]

/-- C5 witness: a timestamp 30 seconds away from the local clock flips the
flag to true, and one 1000 seconds away leaves an unverified flag false. -/
theorem time_message_trust_witness :
    on_message_verified 1000 false
      { message := "time", name := none, timestamp := some 1030, value := none } = true ∧
    on_message_verified 1000 false
      { message := "time", name := none, timestamp := some 2000, value := none } = false := by
  constructor
  · exact (time_message_trust 1000 false _ rfl).1 ⟨1030, rfl, by norm_num⟩
  · exact (time_message_trust 1000 false _ rfl).2
      (by rintro ts ⟨rfl⟩; norm_num)

/-- C8: once the 0xff start-of-frame sentinel is seen, exactly the next three
bytes decide resync: it succeeds if and only if they are cd ab 1f (whatever
follows them), and any other three bytes produce the ResyncError carrying
them. -/
theorem resync_signature_spec (pre : List Nat) (b0 b1 b2 : Nat) (tail : List Nat)
    (hpre : ∀ x ∈ pre, x ≠ 0xff) :
    (resync (pre ++ 0xff :: b0 :: b1 :: b2 :: tail) = some (Except.ok ()) ↔
       b0 = 0xcd ∧ b1 = 0xab ∧ b2 = 0x1f) ∧
    (¬(b0 = 0xcd ∧ b1 = 0xab ∧ b2 = 0x1f) →
       resync (pre ++ 0xff :: b0 :: b1 :: b2 :: tail) =
         some (Except.error (ResyncError.badSignature b0 b1 b2))) := by
  induction pre with
  | nil =>
    by_cases hsig : b0 = 0xcd ∧ b1 = 0xab ∧ b2 = 0x1f
    · obtain ⟨rfl, rfl, rfl⟩ := hsig
      simp [resync]
    · have hlist : ¬([b0, b1, b2] = [0xcd, 0xab, 0x1f]) := by
        simp only [List.cons.injEq, and_true]
        tauto
      simp [resync, hlist, hsig]
  | cons x xs ih =>
    have hx : x ≠ 0xff := hpre x (List.mem_cons_self _ _)
    simp only [List.cons_append, resync, if_neg hx]
    exact ih fun y hy => hpre y (List.mem_cons_of_mem _ hy)

/-- C8 witness: the probe response ff cd ab 20 (last byte wrong) yields the
resync error, and ff cd ab 1f succeeds. -/
theorem resync_signature_spec_witness :
    resync [0xff, 0xcd, 0xab, 0x20] =
      some (Except.error (ResyncError.badSignature 0xcd 0xab 0x20)) ∧
    resync [0xff, 0xcd, 0xab, 0x1f] = some (Except.ok ()) := by
  constructor
  · exact (resync_signature_spec [] 0xcd 0xab 0x20 [] (by simp)).2 (by norm_num)
  · exact (resync_signature_spec [] 0xcd 0xab 0x1f [] (by simp)).1.mpr ⟨rfl, rfl, rfl⟩

/-- C10: for a valid length, read_number reads one response byte first and
fails after that single byte unless it is the 0xff start sentinel; hence a
successful read implies the first response byte was 0xff. -/
theorem read_number_start_byte (cmd length : Nat) (resp : List Nat)
    (hl : length = 2 ∨ length = 4) :
    (resp.getD 0 0 ≠ 0xff →
       (read_number cmd length resp).1 =
         Except.error (BusError.noStart (resp.getD 0 0)) ∧
       (read_number cmd length resp).2 = 1) ∧
    (∀ v, (read_number cmd length resp).1 = Except.ok v →
       resp.getD 0 0 = 0xff) := by
  rcases hl with rfl | rfl <;>
    refine ⟨fun hne => ?_, fun v hv => ?_⟩
  · simp only [read_number, read_number_go]
    rw [if_neg hne]
    exact ⟨rfl, rfl⟩
  · by_contra hne
    simp only [read_number, read_number_go] at hv
    rw [if_neg hne] at hv
    simp at hv
  · simp only [read_number, read_number_go]
    rw [if_neg hne]
    exact ⟨rfl, rfl⟩
  · by_contra hne
    simp only [read_number, read_number_go] at hv
    rw [if_neg hne] at hv
    simp at hv

/-- C10 witness: a first response byte of 0x00 makes read_number fail after
consuming exactly one byte. -/
theorem read_number_start_byte_witness :
    (read_number 0x20 2 [0x00, 0x70, 0x17, 0xb3]).1 =
      Except.error (BusError.noStart 0x00) ∧
    (read_number 0x20 2 [0x00, 0x70, 0x17, 0xb3]).2 = 1 :=
  (read_number_start_byte 0x20 2 [0x00, 0x70, 0x17, 0xb3] (Or.inl rfl)).1 (by norm_num)

/-- C3 counterexample: from a fresh state, three consecutive connection
failures sleep 2, 4 and 8 seconds, not the 1, 2, 4 the claim states (the
delay is doubled before it is slept); likewise a failure immediately after a
successful connection sleeps 2 seconds, not 1 (the trace below sleeps 0 at
open, 1 after the connection closes, then 2 for the failed retry). -/
theorem backoff_sleeps_counterexample :
    (relay_run relay_init
       [RelayEvent.connectFail, RelayEvent.connectFail, RelayEvent.connectFail]).2 =
      [2, 4, 8] ∧
    (relay_run relay_init
       [RelayEvent.connectFail, RelayEvent.connectFail, RelayEvent.connectFail]).2 ≠
      [1, 2, 4] ∧
    (relay_run relay_init
       [RelayEvent.connectOpen, RelayEvent.disconnect, RelayEvent.connectFail]).2 =
      [0, 1, 2] := by
  refine ⟨rfl, by decide, rfl⟩

/-- C3 amended: the reconnect delay starts at 1 second, each failed attempt
doubles it (capped at 60) and then sleeps the doubled value, and any
successful connection resets it to 1 (slept after the connection ends); hence
three consecutive failures from a fresh state sleep 2, 4, 8 seconds and a
failure immediately following a successful connection sleeps 2 seconds. -/
theorem backoff_amended :
    relay_init.delay_seconds = 1 ∧
    (∀ st : RelayState,
       relay_step st RelayEvent.connectFail =
         ({ delay_seconds := min 60 (st.delay_seconds * 2),
            verified_time := st.verified_time }, min 60 (st.delay_seconds * 2))) ∧
    (∀ st : RelayState,
       relay_step st RelayEvent.connectOpen =
         ({ delay_seconds := 1, verified_time := st.verified_time }, 0)) ∧
    (relay_run relay_init
       [RelayEvent.connectFail, RelayEvent.connectFail, RelayEvent.connectFail]).2 =
      [2, 4, 8] ∧
    (relay_run relay_init
       [RelayEvent.connectOpen, RelayEvent.disconnect, RelayEvent.connectFail]).2 =
      [0, 1, 2] :=
  ⟨rfl, fun _ => rfl, fun _ => rfl, rfl, rfl⟩

/-- C9 counterexample: the time-trust flag is not per connection: after a
first connection verifies time and drops, the flag is still true at the start
of the next connection generation, contradicting the claim that it is false at
the start of every connection generation. -/
theorem time_trust_persists_counterexample :
    ((relay_run relay_init
        [RelayEvent.connectOpen,
         RelayEvent.serverMsg 0
           { message := "time", name := none, timestamp := some 0, value := none },
         RelayEvent.disconnect,
         RelayEvent.connectOpen]).1).verified_time = true := by
  decide

/-- C9 amended: the time-trust flag is initialized to false once at client
startup, and no event of the reconnect loop ever resets it: it is a latch for
the lifetime of the process, so trust established on a previous connection
carries over unchanged into every later connection generation. -/
theorem time_trust_latch_amended :
    relay_init.verified_time = false ∧
    (∀ (st : RelayState) (e : RelayEvent), st.verified_time = true →
       ((relay_step st e).1).verified_time = true) ∧
    (∀ st : RelayState,
       ((relay_step st RelayEvent.connectOpen).1).verified_time =
         st.verified_time) := by
  refine ⟨rfl, ?_, fun st => rfl⟩
  intro st e hv
  cases e with
  | connectFail => simpa [relay_step] using hv
  | connectOpen => simpa [relay_step] using hv
  | disconnect => simpa [relay_step] using hv
  | serverMsg now msg =>
    simp only [relay_step, on_message_verified, hv]
    split <;> [skip; rfl]
    split <;> [split <;> rfl; rfl]

/-- C9 witness: a state that already trusts time still trusts it after a new
connection opens. -/
theorem time_trust_latch_amended_witness :
    ((relay_step { delay_seconds := 5, verified_time := true }
        RelayEvent.connectOpen).1).verified_time = true :=
  time_trust_latch_amended.2.1 _ RelayEvent.connectOpen rfl

/-- The source's shift-accumulate decode loop computes the little-endian value
of two data bytes. -/
theorem read_decode_two (d0 d1 : Nat) :
    read_decode 2 [d0, d1] = le_value [d0, d1] := by
  have h2 : List.range 2 = [0, 1] := rfl
  simp only [read_decode, h2, List.foldl_cons, List.foldl_nil, List.getD, le_value]
  norm_num
  omega

/-- The source's shift-accumulate decode loop computes the little-endian value
of four data bytes. -/
theorem read_decode_four (d0 d1 d2 d3 : Nat) :
    read_decode 4 [d0, d1, d2, d3] = le_value [d0, d1, d2, d3] := by
  have h4 : List.range 4 = [0, 1, 2, 3] := rfl
  simp only [read_decode, h4, List.foldl_cons, List.foldl_nil, List.getD, le_value]
  norm_num
  omega

/-- C2: for a valid length and a response whose first byte is the 0xff
sentinel, read_number returns the ChecksumError (carrying the received and the
computed checksum and the data bytes, with no decoded value) exactly when the
received checksum byte differs from the CRC-8 over the command byte followed
by the data bytes; when the two agree it returns Ok with the data bytes read
as a little-endian unsigned integer, byte 0 least significant. -/
theorem read_number_checksum_spec (cmd length : Nat) (resp : List Nat)
    (hl : length = 2 ∨ length = 4) (hstart : resp.getD 0 0 = 0xff) :
    (resp.getD (length + 1) 0 ≠
        crc8_calc
          ((cmd ||| (if length = 2 then TYPE_GETTER2 else TYPE_GETTER4)) ::
            (List.range length).map (fun i => resp.getD (i + 1) 0))
          (length + 1) 0 →
      (read_number cmd length resp).1 =
        Except.error
          (BusError.checksum (resp.getD (length + 1) 0)
            (crc8_calc
              ((cmd ||| (if length = 2 then TYPE_GETTER2 else TYPE_GETTER4)) ::
                (List.range length).map (fun i => resp.getD (i + 1) 0))
              (length + 1) 0)
            ((List.range length).map (fun i => resp.getD (i + 1) 0)))) ∧
    (resp.getD (length + 1) 0 =
        crc8_calc
          ((cmd ||| (if length = 2 then TYPE_GETTER2 else TYPE_GETTER4)) ::
            (List.range length).map (fun i => resp.getD (i + 1) 0))
          (length + 1) 0 →
      (read_number cmd length resp).1 =
        Except.ok (le_value ((List.range length).map (fun i => resp.getD (i + 1) 0)))) := by
  rcases hl with rfl | rfl
  · constructor
    · intro hne
      simp only [read_number, read_number_go]
      rw [if_pos hstart, if_pos (by simpa using hne)]
      norm_num
    · intro heq
      simp only [read_number, read_number_go]
      rw [if_pos hstart, if_neg (by simpa using heq)]
      have h2 : List.range 2 = [0, 1] := rfl
      simp only [h2, List.map_cons, List.map_nil]
      rw [read_decode_two]
  · constructor
    · intro hne
      simp only [read_number, read_number_go]
      rw [if_pos hstart, if_pos (by simpa using hne)]
      norm_num
    · intro heq
      simp only [read_number, read_number_go]
      rw [if_pos hstart, if_neg (by simpa using heq)]
      have h4 : List.range 4 = [0, 1, 2, 3] := rfl
      simp only [h4, List.map_cons, List.map_nil]
      rw [read_decode_four]

/-- C2 witness: the section-8 frame for opcode 0x12 at length 2 with data
bytes 70 17: with the correct checksum b3 the read decodes to 0x1770 = 6000;
with the checksum corrupted to 00 it fails with the ChecksumError and no
value. -/
theorem read_number_checksum_spec_witness :
    (read_number 0x12 2 [0xff, 0x70, 0x17, 0xb3]).1 = Except.ok 6000 ∧
    (read_number 0x12 2 [0xff, 0x70, 0x17, 0x00]).1 =
      Except.error (BusError.checksum 0x00 0xb3 [0x70, 0x17]) := by
  constructor
  · have h := (read_number_checksum_spec 0x12 2 [0xff, 0x70, 0x17, 0xb3]
      (Or.inl rfl) rfl).2 (by decide)
    simpa using h
  · have h := (read_number_checksum_spec 0x12 2 [0xff, 0x70, 0x17, 0x00]
      (Or.inl rfl) rfl).1 (by decide)
    simpa using h

/-- The little-endian serialization loop of write_number produces, for byte i,
the i-th base-256 digit of the value. -/
theorem le_bytes_getD (n v i : Nat) (hi : i < n) :
    (le_bytes n v).getD i 0 = v / 256 ^ i % 256 := by
  induction n generalizing v i with
  | zero => omega
  | succ m ih =>
    cases i with
    | zero => simp [le_bytes]
    | succ j =>
      have hj : j < m := by omega
      simp only [le_bytes, List.getD_cons_succ, ih (v / 256) j hj]
      rw [Nat.div_div_eq_div_mul]
      ring_nf

/-- le_bytes always produces exactly the requested number of bytes. -/
theorem le_bytes_length (n v : Nat) : (le_bytes n v).length = n := by
  induction n generalizing v with
  | zero => rfl
  | succ m ih => simp [le_bytes, ih]

/-- C7: for a valid length, write_number transmits exactly length + 2 bytes:
first the command byte, the opcode or-ed with the setter tag for that length
(0b10000000 for 2 data bytes, 0b11000000 for 4), then the value serialized
little-endian into length bytes (byte i is digit i in base 256), then the
CRC-8 over the command byte followed by the data bytes. -/
theorem write_number_frame_spec (cmd length value : Nat)
    (hl : length = 2 ∨ length = 4) :
    write_number cmd length value =
      Except.ok (write_frame
        (cmd ||| (if length = 2 then 0b10000000 else 0b11000000)) length value) ∧
    (write_frame (cmd ||| (if length = 2 then 0b10000000 else 0b11000000))
        length value).length = length + 2 ∧
    (write_frame (cmd ||| (if length = 2 then 0b10000000 else 0b11000000))
        length value).getD 0 0 =
      cmd ||| (if length = 2 then 0b10000000 else 0b11000000) ∧
    (∀ i < length,
      (write_frame (cmd ||| (if length = 2 then 0b10000000 else 0b11000000))
          length value).getD (i + 1) 0 = value / 256 ^ i % 256) ∧
    (write_frame (cmd ||| (if length = 2 then 0b10000000 else 0b11000000))
        length value).getD (length + 1) 0 =
      crc8_calc
        ((cmd ||| (if length = 2 then 0b10000000 else 0b11000000)) ::
          le_bytes length value)
        (length + 1) 0 := by
  have hframe : ∀ rawcmd,
      write_frame rawcmd length value =
        rawcmd :: le_bytes length value ++
          [crc8_calc (rawcmd :: le_bytes length value) (length + 1) 0] :=
    fun rawcmd => rfl
  rcases hl with rfl | rfl <;>
    refine ⟨rfl, ?_, rfl, ?_, ?_⟩
  · simp [hframe, le_bytes_length]
  · intro i hi
    simp only [hframe, List.getD_cons_succ]
    rw [List.getD_append _ _ _ _ (by simp [le_bytes_length]; omega)]
    exact le_bytes_getD 2 value i hi
  · simp only [hframe, List.getD_cons_succ]
    rw [List.getD_append_right _ _ _ _ (by simp [le_bytes_length])]
    simp [le_bytes_length]
  · simp [hframe, le_bytes_length]
  · intro i hi
    simp only [hframe, List.getD_cons_succ]
    rw [List.getD_append _ _ _ _ (by simp [le_bytes_length]; omega)]
    exact le_bytes_getD 4 value i hi
  · simp only [hframe, List.getD_cons_succ]
    rw [List.getD_append_right _ _ _ _ (by simp [le_bytes_length])]
    simp [le_bytes_length]

/-- C7 witness: writing the colour word 0x4148ffff as a 4-byte setter for
opcode 0x05 transmits six bytes: command byte 0xc5, the four little-endian
data bytes, then the CRC-8 over the first five. -/
theorem write_number_frame_spec_witness :
    write_number 0x05 4 0x4148ffff =
      Except.ok (write_frame (0x05 ||| 0b11000000) 4 0x4148ffff) ∧
    (write_frame (0x05 ||| 0b11000000) 4 0x4148ffff).length = 4 + 2 ∧
    (write_frame (0x05 ||| 0b11000000) 4 0x4148ffff).getD 1 0 =
      0x4148ffff / 256 ^ 0 % 256 := by
  have h := write_number_frame_spec 0x05 4 0x4148ffff (Or.inr rfl)
  exact ⟨by simpa using h.1, by simpa using h.2.1, by simpa using h.2.2.2.1 0 (by norm_num)⟩

theorem update_bytes_eq (raw : Nat) (h : raw < 2 ^ 32) :
    update_bytes raw =
      [raw / 2 ^ 24, raw / 2 ^ 16 % 256, raw / 2 ^ 8 % 256, raw % 256] := by
  have h4 : List.range 4 = [0, 1, 2, 3] := rfl
  simp only [update_bytes, h4, List.map_cons, List.map_nil, List.cons.injEq, and_true]
  refine ⟨?_, ?_, ?_, ?_⟩ <;> norm_num <;> omega

set_option maxRecDepth 100000 in
theorem and_flag_white_testBit : ∀ b < 256, (b &&& 128 != 0) = b.testBit 7 := by decide

set_option maxRecDepth 100000 in
theorem and_flag_looping_testBit : ∀ b < 256, (b &&& 64 != 0) = b.testBit 6 := by decide

set_option maxRecDepth 100000 in
theorem byte0_rec_ff : ∀ b < 256, b &&& 60 = 0 → b &&& 128 = 0 →
    b &&& 64 = 0 → b &&& 3 = b := by decide

set_option maxRecDepth 100000 in
theorem byte0_rec_tf : ∀ b < 256, b &&& 60 = 0 → b &&& 128 ≠ 0 →
    b &&& 64 = 0 → (b &&& 3) ||| 128 = b := by decide

set_option maxRecDepth 100000 in
theorem byte0_rec_ft : ∀ b < 256, b &&& 60 = 0 → b &&& 128 = 0 →
    b &&& 64 ≠ 0 → (b &&& 3) ||| 64 = b := by decide

set_option maxRecDepth 100000 in
theorem byte0_rec_tt : ∀ b < 256, b &&& 60 = 0 → b &&& 128 ≠ 0 →
    b &&& 64 ≠ 0 → ((b &&& 3) ||| 128) ||| 64 = b := by decide

theorem channel_roundtrip (b : Nat) (hb : b < 256) :
    cast_u8 (f32_round ((b : ℚ) / 255 * 255)) = b := by
  have h1 : ((b : ℚ) / 255) * 255 = (b : ℚ) := div_mul_cancel₀ _ (by norm_num)
  have h2 : f32_round ((b : ℚ)) = (b : Int) := by
    rw [f32_round, if_pos (by positivity)]
    have h3 : ((b : ℚ) + 1 / 2) = 1 / 2 + ((b : ℕ) : ℚ) := by ring
    rw [h3, Int.floor_add_nat]
    norm_num
  rw [h1, h2]
  simp [cast_u8]
  omega

theorem time_channel_roundtrip (b : Nat) (hb : b < 256) :
    ufloat8_encode (cast_u32 (f32_round ((ufloat8_decode b : ℚ) / 4 * 4))) = b := by
  have h1 : ((ufloat8_decode b : ℚ) / 4) * 4 = (b : ℚ) := by
    rw [div_mul_cancel₀ _ (by norm_num)]
    simp [ufloat8_decode]
  have h2 : f32_round ((b : ℚ)) = (b : Int) := by
    rw [f32_round, if_pos (by positivity)]
    have h3 : ((b : ℚ) + 1 / 2) = 1 / 2 + ((b : ℕ) : ℚ) := by ring
    rw [h3, Int.floor_add_nat]
    norm_num
  rw [h1, h2]
  simp [cast_u32, ufloat8_encode]
  omega

/-- C6: for every 32-bit raw word, decode reads is_white from bit 7 and
is_looping from bit 6 of the raw, unmasked most-significant byte,
independently of the two mode bits. -/
theorem from_raw_flags_unmasked (raw : Nat) (h32 : raw < 2 ^ 32) :
    (Color.from_raw raw).is_white = (raw / 2 ^ 24).testBit 7 ∧
    (Color.from_raw raw).is_looping = (raw / 2 ^ 24).testBit 6 := by
  have hb0 : raw / 2 ^ 24 < 256 := by omega
  have hub := update_bytes_eq raw h32
  rw [Color.from_raw]
  simp only [Color.update, hub, List.getD_cons_zero, List.getD_cons_succ]
  rw [← and_flag_white_testBit (raw / 2 ^ 24) hb0,
      ← and_flag_looping_testBit (raw / 2 ^ 24) hb0]
  constructor <;> split_ifs <;> simp [COLOR_FLAG_WHITE, COLOR_FLAG_LOOPING]


theorem from_raw_rgb_eq (raw : Nat) (h32 : raw < 2 ^ 32)
    (hm : raw / 2 ^ 24 &&& 3 = 0) :
    Color.from_raw raw =
      { mode := "rgb", is_white := raw / 2 ^ 24 &&& 128 != 0,
        is_looping := raw / 2 ^ 24 &&& 64 != 0, hue := 0, time := 0,
        saturation := 0, value := 0,
        red := ((raw / 2 ^ 16 % 256 : ℕ) : ℚ) / 255,
        green := ((raw / 2 ^ 8 % 256 : ℕ) : ℚ) / 255,
        blue := ((raw % 256 : ℕ) : ℚ) / 255 } := by
  rw [Color.from_raw]
  simp only [Color.update, update_bytes_eq raw h32, List.getD_cons_zero,
    List.getD_cons_succ, COLOR_MODE_MASK, COLOR_MODE_RGB, COLOR_MODE_HSV,
    COLOR_MODE_HSV_MAX, COLOR_FLAG_WHITE, COLOR_FLAG_LOOPING, hm]
  norm_num [Color.new]

theorem from_raw_hsv_noloop_eq (raw : Nat) (h32 : raw < 2 ^ 32)
    (hm : raw / 2 ^ 24 &&& 3 = 1) (hl : raw / 2 ^ 24 &&& 64 = 0) :
    Color.from_raw raw =
      { mode := "hsv", is_white := raw / 2 ^ 24 &&& 128 != 0,
        is_looping := false,
        hue := ((raw / 2 ^ 16 % 256 : ℕ) : ℚ) / 255, time := 0,
        saturation := ((raw / 2 ^ 8 % 256 : ℕ) : ℚ) / 255,
        value := ((raw % 256 : ℕ) : ℚ) / 255,
        red := 0, green := 0, blue := 0 } := by
  rw [Color.from_raw]
  simp only [Color.update, update_bytes_eq raw h32, List.getD_cons_zero,
    List.getD_cons_succ, COLOR_MODE_MASK, COLOR_MODE_RGB, COLOR_MODE_HSV,
    COLOR_MODE_HSV_MAX, COLOR_FLAG_WHITE, COLOR_FLAG_LOOPING, hm, hl]
  norm_num [Color.new]

theorem from_raw_hsv_loop_eq (raw : Nat) (h32 : raw < 2 ^ 32)
    (hm : raw / 2 ^ 24 &&& 3 = 1) (hl : raw / 2 ^ 24 &&& 64 ≠ 0) :
    Color.from_raw raw =
      { mode := "hsv", is_white := raw / 2 ^ 24 &&& 128 != 0,
        is_looping := true, hue := 0,
        time := ((ufloat8_decode (raw / 2 ^ 16 % 256) : ℕ) : ℚ) / 4,
        saturation := ((raw / 2 ^ 8 % 256 : ℕ) : ℚ) / 255,
        value := ((raw % 256 : ℕ) : ℚ) / 255,
        red := 0, green := 0, blue := 0 } := by
  have hlb : (raw / 2 ^ 24 &&& 64 != 0) = true := bne_iff_ne.mpr hl
  rw [Color.from_raw]
  simp only [Color.update, update_bytes_eq raw h32, List.getD_cons_zero,
    List.getD_cons_succ, COLOR_MODE_MASK, COLOR_MODE_RGB, COLOR_MODE_HSV,
    COLOR_MODE_HSV_MAX, COLOR_FLAG_WHITE, COLOR_FLAG_LOOPING, hm, hlb]
  norm_num [Color.new]

theorem from_raw_hsvmax_noloop_eq (raw : Nat) (h32 : raw < 2 ^ 32)
    (hm : raw / 2 ^ 24 &&& 3 = 2) (hl : raw / 2 ^ 24 &&& 64 = 0) :
    Color.from_raw raw =
      { mode := "hsv-max", is_white := raw / 2 ^ 24 &&& 128 != 0,
        is_looping := false,
        hue := ((raw / 2 ^ 16 % 256 : ℕ) : ℚ) / 255, time := 0,
        saturation := ((raw / 2 ^ 8 % 256 : ℕ) : ℚ) / 255,
        value := ((raw % 256 : ℕ) : ℚ) / 255,
        red := 0, green := 0, blue := 0 } := by
  rw [Color.from_raw]
  simp only [Color.update, update_bytes_eq raw h32, List.getD_cons_zero,
    List.getD_cons_succ, COLOR_MODE_MASK, COLOR_MODE_RGB, COLOR_MODE_HSV,
    COLOR_MODE_HSV_MAX, COLOR_FLAG_WHITE, COLOR_FLAG_LOOPING, hm, hl]
  norm_num [Color.new]

theorem from_raw_hsvmax_loop_eq (raw : Nat) (h32 : raw < 2 ^ 32)
    (hm : raw / 2 ^ 24 &&& 3 = 2) (hl : raw / 2 ^ 24 &&& 64 ≠ 0) :
    Color.from_raw raw =
      { mode := "hsv-max", is_white := raw / 2 ^ 24 &&& 128 != 0,
        is_looping := true, hue := 0,
        time := ((ufloat8_decode (raw / 2 ^ 16 % 256) : ℕ) : ℚ) / 4,
        saturation := ((raw / 2 ^ 8 % 256 : ℕ) : ℚ) / 255,
        value := ((raw % 256 : ℕ) : ℚ) / 255,
        red := 0, green := 0, blue := 0 } := by
  have hlb : (raw / 2 ^ 24 &&& 64 != 0) = true := bne_iff_ne.mpr hl
  rw [Color.from_raw]
  simp only [Color.update, update_bytes_eq raw h32, List.getD_cons_zero,
    List.getD_cons_succ, COLOR_MODE_MASK, COLOR_MODE_RGB, COLOR_MODE_HSV,
    COLOR_MODE_HSV_MAX, COLOR_FLAG_WHITE, COLOR_FLAG_LOOPING, hm, hlb]
  norm_num [Color.new]

theorem raw_rgb_eq (w l : Bool) (hu ti sa va r g b : ℚ) :
    Color.raw
      { mode := "rgb", is_white := w, is_looping := l, hue := hu,
        time := ti, saturation := sa, value := va, red := r, green := g,
        blue := b } =
      (((0 * 256 +
          (if l then (if w then 0 ||| 128 else 0) ||| 64
           else (if w then 0 ||| 128 else 0))) * 256 +
         cast_u8 (f32_round (r * 255))) * 256 +
        cast_u8 (f32_round (g * 255))) * 256 +
       cast_u8 (f32_round (b * 255)) := rfl

theorem raw_hsv_eq (w l : Bool) (hu ti sa va r g b : ℚ) :
    Color.raw
      { mode := "hsv", is_white := w, is_looping := l, hue := hu,
        time := ti, saturation := sa, value := va, red := r, green := g,
        blue := b } =
      (((0 * 256 +
          (if l then (if w then 1 ||| 128 else 1) ||| 64
           else (if w then 1 ||| 128 else 1))) * 256 +
         (if l then ufloat8_encode (cast_u32 (f32_round (ti * 4)))
          else cast_u8 (f32_round (hu * 255)))) * 256 +
        cast_u8 (f32_round (sa * 255))) * 256 +
       cast_u8 (f32_round (va * 255)) := rfl

theorem raw_hsvmax_eq (w l : Bool) (hu ti sa va r g b : ℚ) :
    Color.raw
      { mode := "hsv-max", is_white := w, is_looping := l, hue := hu,
        time := ti, saturation := sa, value := va, red := r, green := g,
        blue := b } =
      (((0 * 256 +
          (if l then (if w then 2 ||| 128 else 2) ||| 64
           else (if w then 2 ||| 128 else 2))) * 256 +
         (if l then ufloat8_encode (cast_u32 (f32_round (ti * 4)))
          else cast_u8 (f32_round (hu * 255)))) * 256 +
        cast_u8 (f32_round (sa * 255))) * 256 +
       cast_u8 (f32_round (va * 255)) := rfl


/-- C1 amended: the codec round trip holds for every 32-bit raw word whose
most-significant byte has bits 2 to 5 clear and whose low two mode bits are
not the undefined pattern 0b11: Color.raw (Color.from_raw raw) = raw. (The
original claim, quantified over every word with defined mode bits, fails:
decode drops bits 2 to 5 of byte 0 and encode writes them back as zero.) -/
theorem color_roundtrip_amended (raw : Nat) (h32 : raw < 2 ^ 32)
    (hres : raw / 2 ^ 24 &&& 60 = 0) (hmode : raw / 2 ^ 24 &&& 3 ≠ 3) :
    Color.raw (Color.from_raw raw) = raw := by
  have hb0 : raw / 2 ^ 24 < 256 := by omega
  have hb1 : raw / 2 ^ 16 % 256 < 256 := Nat.mod_lt _ (by norm_num)
  have hb2 : raw / 2 ^ 8 % 256 < 256 := Nat.mod_lt _ (by norm_num)
  have hb3 : raw % 256 < 256 := Nat.mod_lt _ (by norm_num)
  have hraw : raw = raw / 2 ^ 24 * 2 ^ 24 + raw / 2 ^ 16 % 256 * 2 ^ 16 +
      raw / 2 ^ 8 % 256 * 2 ^ 8 + raw % 256 := by omega
  have hle : raw / 2 ^ 24 &&& 3 ≤ 3 := Nat.and_le_right
  have hm : raw / 2 ^ 24 &&& 3 = 0 ∨ raw / 2 ^ 24 &&& 3 = 1 ∨
      raw / 2 ^ 24 &&& 3 = 2 := by omega
  rcases hm with hm | hm | hm
  · -- rgb mode
    rw [from_raw_rgb_eq raw h32 hm, raw_rgb_eq,
        channel_roundtrip _ hb1, channel_roundtrip _ hb2, channel_roundtrip _ hb3]
    by_cases hw : raw / 2 ^ 24 &&& 128 = 0 <;>
      by_cases hlp : raw / 2 ^ 24 &&& 64 = 0
    · have hwb : (raw / 2 ^ 24 &&& 128 != 0) = false := by rw [hw]; rfl
      have hlb : (raw / 2 ^ 24 &&& 64 != 0) = false := by rw [hlp]; rfl
      rw [hwb, hlb, if_neg Bool.false_ne_true, if_neg Bool.false_ne_true]
      have hx := byte0_rec_ff _ hb0 hres hw hlp
      rw [hm] at hx
      omega
    · have hwb : (raw / 2 ^ 24 &&& 128 != 0) = false := by rw [hw]; rfl
      have hlb : (raw / 2 ^ 24 &&& 64 != 0) = true := bne_iff_ne.mpr hlp
      rw [hwb, hlb, if_pos rfl, if_neg Bool.false_ne_true]
      have hx := byte0_rec_ft _ hb0 hres hw hlp
      rw [hm] at hx
      rw [hx]
      omega
    · have hwb : (raw / 2 ^ 24 &&& 128 != 0) = true := bne_iff_ne.mpr hw
      have hlb : (raw / 2 ^ 24 &&& 64 != 0) = false := by rw [hlp]; rfl
      rw [hwb, hlb, if_neg Bool.false_ne_true, if_pos rfl]
      have hx := byte0_rec_tf _ hb0 hres hw hlp
      rw [hm] at hx
      rw [hx]
      omega
    · have hwb : (raw / 2 ^ 24 &&& 128 != 0) = true := bne_iff_ne.mpr hw
      have hlb : (raw / 2 ^ 24 &&& 64 != 0) = true := bne_iff_ne.mpr hlp
      rw [hwb, hlb, if_pos rfl, if_pos rfl]
      have hx := byte0_rec_tt _ hb0 hres hw hlp
      rw [hm] at hx
      rw [hx]
      omega
  · -- hsv mode
    by_cases hlp : raw / 2 ^ 24 &&& 64 = 0
    · rw [from_raw_hsv_noloop_eq raw h32 hm hlp, raw_hsv_eq,
          channel_roundtrip _ hb1, channel_roundtrip _ hb2, channel_roundtrip _ hb3]
      by_cases hw : raw / 2 ^ 24 &&& 128 = 0
      · have hwb : (raw / 2 ^ 24 &&& 128 != 0) = false := by rw [hw]; rfl
        rw [hwb, if_neg Bool.false_ne_true, if_neg Bool.false_ne_true,
            if_neg Bool.false_ne_true]
        have hx := byte0_rec_ff _ hb0 hres hw hlp
        rw [hm] at hx
        omega
      · have hwb : (raw / 2 ^ 24 &&& 128 != 0) = true := bne_iff_ne.mpr hw
        rw [hwb, if_neg Bool.false_ne_true, if_pos rfl, if_neg Bool.false_ne_true]
        have hx := byte0_rec_tf _ hb0 hres hw hlp
        rw [hm] at hx
        rw [hx]
        omega
    · rw [from_raw_hsv_loop_eq raw h32 hm hlp, raw_hsv_eq,
          time_channel_roundtrip _ hb1, channel_roundtrip _ hb2,
          channel_roundtrip _ hb3]
      by_cases hw : raw / 2 ^ 24 &&& 128 = 0
      · have hwb : (raw / 2 ^ 24 &&& 128 != 0) = false := by rw [hw]; rfl
        rw [hwb, if_pos rfl, if_neg Bool.false_ne_true, if_pos rfl]
        have hx := byte0_rec_ft _ hb0 hres hw hlp
        rw [hm] at hx
        rw [hx]
        omega
      · have hwb : (raw / 2 ^ 24 &&& 128 != 0) = true := bne_iff_ne.mpr hw
        rw [hwb, if_pos rfl, if_pos rfl, if_pos rfl]
        have hx := byte0_rec_tt _ hb0 hres hw hlp
        rw [hm] at hx
        rw [hx]
        omega
  · -- hsv-max mode
    by_cases hlp : raw / 2 ^ 24 &&& 64 = 0
    · rw [from_raw_hsvmax_noloop_eq raw h32 hm hlp, raw_hsvmax_eq,
          channel_roundtrip _ hb1, channel_roundtrip _ hb2, channel_roundtrip _ hb3]
      by_cases hw : raw / 2 ^ 24 &&& 128 = 0
      · have hwb : (raw / 2 ^ 24 &&& 128 != 0) = false := by rw [hw]; rfl
        rw [hwb, if_neg Bool.false_ne_true, if_neg Bool.false_ne_true,
            if_neg Bool.false_ne_true]
        have hx := byte0_rec_ff _ hb0 hres hw hlp
        rw [hm] at hx
        omega
      · have hwb : (raw / 2 ^ 24 &&& 128 != 0) = true := bne_iff_ne.mpr hw
        rw [hwb, if_neg Bool.false_ne_true, if_pos rfl, if_neg Bool.false_ne_true]
        have hx := byte0_rec_tf _ hb0 hres hw hlp
        rw [hm] at hx
        rw [hx]
        omega
    · rw [from_raw_hsvmax_loop_eq raw h32 hm hlp, raw_hsvmax_eq,
          time_channel_roundtrip _ hb1, channel_roundtrip _ hb2,
          channel_roundtrip _ hb3]
      by_cases hw : raw / 2 ^ 24 &&& 128 = 0
      · have hwb : (raw / 2 ^ 24 &&& 128 != 0) = false := by rw [hw]; rfl
        rw [hwb, if_pos rfl, if_neg Bool.false_ne_true, if_pos rfl]
        have hx := byte0_rec_ft _ hb0 hres hw hlp
        rw [hm] at hx
        rw [hx]
        omega
      · have hwb : (raw / 2 ^ 24 &&& 128 != 0) = true := bne_iff_ne.mpr hw
        rw [hwb, if_pos rfl, if_pos rfl, if_pos rfl]
        have hx := byte0_rec_tt _ hb0 hres hw hlp
        rw [hm] at hx
        rw [hx]
        omega


/-- C1 counterexample: the raw word 0x04000000 has mode bits 00 (rgb, not the
undefined pattern), yet it does not round trip: bit 2 of byte 0 is dropped by
decode and the word re-encodes to 0. -/
theorem color_roundtrip_counterexample :
    Color.raw (Color.from_raw 0x04000000) = 0 ∧
    0x04000000 / 2 ^ 24 &&& 3 ≠ 3 ∧
    Color.raw (Color.from_raw 0x04000000) ≠ 0x04000000 := by
  have h32 : (0x04000000 : Nat) < 2 ^ 32 := by norm_num
  have hm : (0x04000000 : Nat) / 2 ^ 24 &&& 3 = 0 := by decide
  have h : Color.raw (Color.from_raw 0x04000000) = 0 := by
    rw [from_raw_rgb_eq _ h32 hm, raw_rgb_eq]
    rw [show ((0x04000000 : Nat) / 2 ^ 24 &&& 128 != 0) = false from by decide,
        show ((0x04000000 : Nat) / 2 ^ 24 &&& 64 != 0) = false from by decide,
        if_neg Bool.false_ne_true, if_neg Bool.false_ne_true]
    rw [channel_roundtrip (0x04000000 / 2 ^ 16 % 256) (by decide),
        channel_roundtrip (0x04000000 / 2 ^ 8 % 256) (by decide),
        channel_roundtrip (0x04000000 % 256) (by decide)]
    decide
  exact ⟨h, by decide, by rw [h]; decide⟩

/-- C1 witness: the spec's literal case, the looping hsv word 0x4148ffff,
round trips. -/
theorem color_roundtrip_amended_witness :
    Color.raw (Color.from_raw 0x4148ffff) = 0x4148ffff :=
  color_roundtrip_amended 0x4148ffff (by norm_num) (by decide) (by decide)

/-- C6 witness: for the raw word 0xc3000000 (both flag bits set, mode bits
11), the decoded flags equal bits 7 and 6 of the top byte. -/
theorem from_raw_flags_unmasked_witness :
    (Color.from_raw 0xc3000000).is_white = (0xc3000000 / 2 ^ 24).testBit 7 ∧
    (Color.from_raw 0xc3000000).is_looping = (0xc3000000 / 2 ^ 24).testBit 6 :=
  from_raw_flags_unmasked 0xc3000000 (by norm_num)

end Domo
